import Mathlib

set_option maxHeartbeats 1000000

/-!
Verification of the Proxi policy engine (`src/guardrails/policy_engine.py`).

The engine state is embedded shallowly:

* the policy document (`PolicyDocument` JSON schema) becomes the `Policy`
  structure, with `modes` an association list keyed by mode name;
* `TemporaryPermissionManager` becomes `TempState`; its `threading.Timer`
  is modelled by the absolute fire time it was scheduled for (`timer`),
  and a separate `canExpire` predicate says when that timer may fire;
* the clock (`datetime.now()`) is an explicit `now : Int` counted in
  microseconds (the resolution of `datetime`), advanced by an explicit
  `tick` step; durations passed by callers are whole seconds, so a
  duration `d` adds `d * 1000000` microseconds;
* Python floats returned by `remaining_time()` are modelled exactly: the
  value is always `microseconds / 10^6`, so we keep the integer
  microsecond count and translate `int(x)` (truncation toward zero) into
  `Int.tdiv`;
* `PolicyViolationError` becomes the `Violation` structure.  The
  human-readable `message` of the exception is determined by the fields
  we keep (tool name, mode, reason, and the remaining time interpolated
  into the blocked-in-mode message, kept as `temp_note`), so it is not
  duplicated as a string;
* `validate` returns `VResult`: `ok` for Python `return True`,
  `violation` for a raised `PolicyViolationError`, and `keyError` for the
  untyped `KeyError` escaping `self.policy[\x27modes\x27][self.current_mode]`
  when the current mode is not defined by the document.

Each engine method becomes a state-to-state function; `Reachable` is the
set of states produced by any sequence of engine operations (including
clock advance and timer expiry) from construction.
-/

/-- One mode entry of the policy document (an entry of `modes` in the JSON schema). -/
structure Mode where
  description : String
  allowed_tools : List String
  blocked_tools : List String
deriving DecidableEq, Repr

/-- The `global_rules` object of the policy document. -/
structure GlobalRules where
  always_blocked : List String
deriving DecidableEq, Repr

/-- The loaded policy document (`PolicyEngine.policy` after `_load_policy`). -/
structure Policy where
  policy_name : String
  version : String
  modes : List (String × Mode)
  global_rules : GlobalRules
deriving DecidableEq, Repr

/-- State of `TemporaryPermissionManager`: the `is_active` flag, the absolute
expiry time (`expiry_time`, microseconds), and the pending `threading.Timer`,
modelled by the absolute time it was scheduled to fire at (which the source
always sets equal to the expiry time). -/
structure TempState where
  is_active : Bool
  expiry_time : Option Int
  timer : Option Int
deriving DecidableEq, Repr

/-- State of a `PolicyEngine` instance, together with the ambient clock `now`
(microseconds since construction). -/
structure EngineState where
  policy : Policy
  current_mode : String
  base_mode : String
  temp : TempState
  now : Int
deriving DecidableEq, Repr

/-- The data carried by a raised `PolicyViolationError`: `tool_name`, the
`mode` in force at decision time, the `reason` string, and the remaining
temporary-permission time interpolated into the message when the
blocked-in-mode branch finds a valid grant (`temp_note`, microseconds). -/
structure Violation where
  tool_name : String
  mode : String
  reason : String
  temp_note : Option Int
deriving DecidableEq, Repr

/-- Outcome of `PolicyEngine.validate`: `ok` is Python `return True`,
`violation` a raised `PolicyViolationError`, `keyError` the untyped
`KeyError` raised by the mode lookup when `current_mode` is not a key of
`policy.modes`. -/
inductive VResult where
  | ok : VResult
  | violation : Violation → VResult
  | keyError : String → VResult
deriving DecidableEq, Repr

/-- Holds (as `true`) exactly on the `keyError` outcome: the crash the typed API does
not admit. -/
def isKeyError : VResult → Bool
  | .keyError _ => true
  | _ => false

/-- Embedding of `TemporaryPermissionManager.is_valid`:
`is_active and (expiry_time is None or now < expiry_time)`. -/
def is_valid (s : EngineState) : Bool :=
  s.temp.is_active && (match s.temp.expiry_time with
    | none => true
    | some e => decide (s.now < e))

/-- Embedding of `TemporaryPermissionManager.remaining_time`, in microseconds:
`None` when inactive or without expiry, else `max(0, expiry_time - now)`. -/
def remaining_micro (s : EngineState) : Option Int :=
  if s.temp.is_active = false then none
  else
    match s.temp.expiry_time with
    | none => none
    | some e => some (max 0 (e - s.now))

/-- Embedding of `PolicyEngine.validate(tool_name, args, context)`.  The `args` and
`context` dictionaries are accepted (defaulted to `{}` in the source) but
never consulted. -/
def validate (s : EngineState) (tool_name : String)
    (args context : List (String × String)) : VResult :=
  if tool_name ∈ s.policy.global_rules.always_blocked then
    .violation { tool_name := tool_name, mode := s.current_mode,
                 reason := "Globally blocked - destructive operation",
                 temp_note := none }
  else
    match s.policy.modes.lookup s.current_mode with
    | none => .keyError s.current_mode
    | some mode_policy =>
      if tool_name ∈ mode_policy.blocked_tools then
        .violation { tool_name := tool_name, mode := s.current_mode,
                     reason := "Blocked in " ++ s.current_mode ++ " mode",
                     temp_note := if is_valid s then remaining_micro s else none }
      else if tool_name ∉ mode_policy.allowed_tools then
        .violation { tool_name := tool_name, mode := s.current_mode,
                     reason := "Not whitelisted for " ++ s.current_mode ++ " mode",
                     temp_note := none }
      else .ok

/-- Embedding of `TemporaryPermissionManager.grant(duration_seconds, on_expiry)`: cancels
any pending timer (here: overwrites it), marks active, sets
`expiry_time = now + duration`, and schedules a fresh timer for that moment.
No check is made on the sign of the duration. -/
def mgrGrant (now d : Int) : TempState :=
  { is_active := true,
    expiry_time := some (now + d * 1000000),
    timer := some (now + d * 1000000) }

/-- Embedding of `TemporaryPermissionManager.revoke`: cancels the pending timer and marks
inactive. -/
def mgrRevoke : TempState :=
  { is_active := false, expiry_time := none, timer := none }

/-- Embedding of `PolicyEngine.set_mode(mode)`: `ValueError` (modelled by `Except.error`)
when the mode is not defined by the document, otherwise revoke a valid grant
and set both `current_mode` and `base_mode`. -/
def set_mode (s : EngineState) (m : String) : Except String EngineState :=
  if (s.policy.modes.lookup m).isNone then .error m
  else
    let s1 := if is_valid s then { s with temp := mgrRevoke } else s
    .ok { s1 with current_mode := m, base_mode := m }

/-- Embedding of `PolicyEngine.grant_temporary_emergency(duration_seconds)`:
`base_mode = current_mode`, `current_mode = "EMERGENCY"`, then grant with the
`on_expiry` callback that restores `current_mode = base_mode`. -/
def grant_temporary_emergency (s : EngineState) (d : Int) : EngineState :=
  { s with base_mode := s.current_mode, current_mode := "EMERGENCY",
           temp := mgrGrant s.now d }

/-- Embedding of `PolicyEngine.extend_temporary_emergency(additional_seconds)`: a no-op
when no valid grant exists; otherwise re-grants with
`int(remaining + additional_seconds)` seconds, where `remaining` is the exact
rational `remaining_micro / 10^6` and `int` truncates toward zero. -/
def extend_temporary_emergency (s : EngineState) (d : Int) : EngineState :=
  if is_valid s = false then s
  else
    let remaining : Int := (remaining_micro s).getD 0
    let new_duration : Int := Int.tdiv (remaining + d * 1000000) 1000000
    { s with temp := mgrGrant s.now new_duration }

/-- The timer may fire: a timer is scheduled and its fire time has been
reached (a `threading.Timer` with a non-positive interval fires at once). -/
def canExpire (s : EngineState) : Bool :=
  match s.temp.timer with
  | none => false
  | some ft => decide (ft ≤ s.now)

/-- Body of `TemporaryPermissionManager._expire` together with the
`on_expiry` callback installed by every grant: clear the grant and restore
`current_mode = base_mode`. -/
def expireFn (s : EngineState) : EngineState :=
  { s with temp := mgrRevoke, current_mode := s.base_mode }

/-- Embedding of `PolicyEngine.revoke_temporary_emergency`: revoke the grant and restore
`current_mode = base_mode` synchronously. -/
def revoke_temporary_emergency (s : EngineState) : EngineState :=
  { s with temp := mgrRevoke, current_mode := s.base_mode }

/-- Advance the ambient clock by `d` microseconds. -/
def tick (s : EngineState) (d : Nat) : EngineState :=
  { s with now := s.now + d }

/-- Embedding of `PolicyEngine.__init__`: both modes start as the hardcoded `"NORMAL"`,
with no temporary permission. -/
def initEngine (p : Policy) : EngineState :=
  { policy := p, current_mode := "NORMAL", base_mode := "NORMAL",
    temp := { is_active := false, expiry_time := none, timer := none },
    now := 0 }

/-- States reachable from construction by any sequence of engine operations.
`validate` and a failing `set_mode` do not change the state, so they need no
constructor; the timer may only fire when `canExpire` holds. -/
inductive Reachable : EngineState → Prop where
  | init (p : Policy) : Reachable (initEngine p)
  | tick (s : EngineState) (d : Nat) : Reachable s → Reachable (tick s d)
  | setMode (s : EngineState) (m : String) (s2 : EngineState) :
      Reachable s → set_mode s m = .ok s2 → Reachable s2
  | grant (s : EngineState) (d : Int) :
      Reachable s → Reachable (grant_temporary_emergency s d)
  | extend (s : EngineState) (d : Int) :
      Reachable s → Reachable (extend_temporary_emergency s d)
  | expire (s : EngineState) :
      Reachable s → canExpire s = true → Reachable (expireFn s)
  | revoke (s : EngineState) :
      Reachable s → Reachable (revoke_temporary_emergency s)

/-- A concrete policy document in the shape the demo drives
(`policies/ops_policy.json` is loaded by the server; the mode and tool names
appear in `main.py`). Used only as test data for witnesses. -/
def opsPolicy : Policy :=
  { policy_name := "Proxi Ops Policy", version := "2.0",
    modes :=
      [("NORMAL",
        { description := "Read-only operations",
          allowed_tools := ["get_service_status", "read_logs", "list_services"],
          blocked_tools := ["restart_service", "scale_fleet", "delete_database"] }),
       ("EMERGENCY",
        { description := "Remediation allowed",
          allowed_tools := ["get_service_status", "read_logs", "list_services",
                            "restart_service", "scale_fleet"],
          blocked_tools := ["delete_database"] })],
    global_rules := { always_blocked := ["delete_database"] } }

/-- A well-formed policy document that does not define a mode named
`"NORMAL"`. Used only as test data. -/
def safeOnlyPolicy : Policy :=
  { policy_name := "Safe Only", version := "1.0",
    modes :=
      [("SAFE",
        { description := "ping only",
          allowed_tools := ["ping"],
          blocked_tools := [] })],
    global_rules := { always_blocked := [] } }

/-- Claim C1: for every tool in `global_rules.always_blocked`, `validate`
yields the globally-blocked `PolicyViolationError`, whatever the current
mode and whatever the temporary-permission state (both live inside `s`,
which is universally quantified): the global stage is evaluated first and
no grant appears in it. -/
theorem validate_globally_blocked (s : EngineState) (t : String)
    (args context : List (String × String))
    (h : t ∈ s.policy.global_rules.always_blocked) :
    validate s t args context =
      .violation { tool_name := t, mode := s.current_mode,
                   reason := "Globally blocked - destructive operation",
                   temp_note := none } := by
  simp [validate, h]

/-- Claim C1 witness: with an active 300-second temporary EMERGENCY grant,
`delete_database` is still globally blocked. -/
theorem validate_globally_blocked_witness :
    validate (grant_temporary_emergency (initEngine opsPolicy) 300)
        "delete_database" [] [] =
      .violation { tool_name := "delete_database", mode := "EMERGENCY",
                   reason := "Globally blocked - destructive operation",
                   temp_note := none } :=
  validate_globally_blocked _ "delete_database" [] [] (by decide)

/-- Claim C2: when the current mode is defined by the document, `validate`
is exactly the three-stage short-circuiting pipeline: global block, then
mode block, then the mode allow-list with default deny — a tool in neither
list falls through to the not-whitelisted violation. -/
theorem validate_three_stages (s : EngineState) (t : String)
    (args context : List (String × String)) (mode_policy : Mode)
    (hm : s.policy.modes.lookup s.current_mode = some mode_policy) :
    validate s t args context =
      if t ∈ s.policy.global_rules.always_blocked then
        .violation { tool_name := t, mode := s.current_mode,
                     reason := "Globally blocked - destructive operation",
                     temp_note := none }
      else if t ∈ mode_policy.blocked_tools then
        .violation { tool_name := t, mode := s.current_mode,
                     reason := "Blocked in " ++ s.current_mode ++ " mode",
                     temp_note := if is_valid s then remaining_micro s else none }
      else if t ∈ mode_policy.allowed_tools then .ok
      else
        .violation { tool_name := t, mode := s.current_mode,
                     reason := "Not whitelisted for " ++ s.current_mode ++ " mode",
                     temp_note := none } := by
  unfold validate
  rw [hm]
  by_cases hg : t ∈ s.policy.global_rules.always_blocked <;>
  by_cases hb : t ∈ mode_policy.blocked_tools <;>
  by_cases ha : t ∈ mode_policy.allowed_tools <;>
  simp [hg, hb, ha]

/-- Claim C2 witness: a tool that appears in neither list of NORMAL mode is
denied through the not-whitelisted path. -/
theorem validate_three_stages_witness :
    validate (initEngine opsPolicy) "unknown_tool" [] [] =
      .violation { tool_name := "unknown_tool", mode := "NORMAL",
                   reason := "Not whitelisted for NORMAL mode",
                   temp_note := none } := by
  have h := validate_three_stages (initEngine opsPolicy) "unknown_tool" [] []
    { description := "Read-only operations",
      allowed_tools := ["get_service_status", "read_logs", "list_services"],
      blocked_tools := ["restart_service", "scale_fleet", "delete_database"] }
    (by decide)
  exact h.trans (by decide)

/-- Claim C9: the decision of `validate` depends only on the state (mode,
policy, grant) and the tool name, never on the contents of `args` or
`context` — the source defaults them and never reads them. -/
theorem validate_ignores_args_and_context (s : EngineState) (t : String)
    (a1 c1 a2 c2 : List (String × String)) :
    validate s t a1 c1 = validate s t a2 c2 := rfl

/-- Claim C3 counterexample: `grant_temporary_emergency` with duration 0 is
not rejected — there is no error path in the source — and it does change
state: the grant becomes active and the current mode flips to EMERGENCY. -/
theorem grant_nonpositive_not_rejected :
    (grant_temporary_emergency (initEngine opsPolicy) 0).temp.is_active = true ∧
    (initEngine opsPolicy).temp.is_active = false ∧
    (grant_temporary_emergency (initEngine opsPolicy) 0).current_mode = "EMERGENCY" ∧
    (initEngine opsPolicy).current_mode = "NORMAL" := by decide

/-- Claim C3 amended: a non-positive duration is accepted without any
error; the grant is installed (active, base mode captured, current mode
EMERGENCY) with an expiry instant that has already passed, so it is
immediately invalid and its timer is immediately eligible to fire. -/
theorem grant_nonpositive_accepted (s : EngineState) (d : Int) (hd : d ≤ 0) :
    (grant_temporary_emergency s d).temp.is_active = true ∧
    is_valid (grant_temporary_emergency s d) = false ∧
    canExpire (grant_temporary_emergency s d) = true ∧
    (grant_temporary_emergency s d).base_mode = s.current_mode ∧
    (grant_temporary_emergency s d).current_mode = "EMERGENCY" := by
  refine ⟨rfl, ?_, ?_, rfl, rfl⟩
  · simp only [is_valid, grant_temporary_emergency, mgrGrant, Bool.true_and,
      Bool.and_eq_false_iff, decide_eq_false_iff_not, not_lt]
    omega
  · simp only [canExpire, grant_temporary_emergency, mgrGrant, decide_eq_true_eq]
    omega

/-- Claim C3 witness (for the amended statement), at duration 0 from a fresh
engine. -/
theorem grant_nonpositive_accepted_witness :
    (0 : Int) ≤ 0 ∧
    is_valid (grant_temporary_emergency (initEngine opsPolicy) 0) = false :=
  ⟨by decide, (grant_nonpositive_accepted (initEngine opsPolicy) 0 (by decide)).2.1⟩

/-- Claim C10: granting while a grant is already active (current mode
already EMERGENCY) overwrites `base_mode` with EMERGENCY, so a later expiry
or revocation leaves the engine in EMERGENCY instead of the pre-elevation
mode: the original mode is lost. -/
theorem regrant_overwrites_base_mode (s : EngineState) (d : Int)
    (hact : s.temp.is_active = true) (hcur : s.current_mode = "EMERGENCY")
    (hbase : s.base_mode ≠ "EMERGENCY") :
    (grant_temporary_emergency s d).base_mode = "EMERGENCY" ∧
    (expireFn (grant_temporary_emergency s d)).current_mode = "EMERGENCY" ∧
    (revoke_temporary_emergency (grant_temporary_emergency s d)).current_mode = "EMERGENCY" ∧
    (expireFn (grant_temporary_emergency s d)).current_mode ≠ s.base_mode := by
  refine ⟨hcur, hcur, hcur, ?_⟩
  simpa [expireFn, grant_temporary_emergency, hcur] using fun h => hbase h.symm

/-- Claim C10 witness: grant twice from a fresh engine; the second grant
records EMERGENCY as the base mode, and expiry then keeps EMERGENCY. -/
theorem regrant_overwrites_base_mode_witness :
    (grant_temporary_emergency
        (grant_temporary_emergency (initEngine opsPolicy) 10) 5).base_mode =
      "EMERGENCY" :=
  (regrant_overwrites_base_mode (grant_temporary_emergency (initEngine opsPolicy) 10) 5
    (by decide) (by decide) (by decide)).1


/-- Claim C4: in every state reachable from construction by any sequence of
engine operations (mode changes, grants, extensions, revocations, timer
expiry, clock advance; `validate` and a failing `set_mode` leave the state
unchanged), if the temporary grant is not active (`is_active = false`) then
`current_mode = base_mode`. -/
theorem inactive_implies_modes_equal (s : EngineState) (hre : Reachable s)
    (h : s.temp.is_active = false) : s.current_mode = s.base_mode := by
  induction hre with
  | init p => rfl
  | tick s d hr ih => exact ih h
  | setMode s m s2 hr heq ih =>
    by_cases hl : (s.policy.modes.lookup m).isNone
    · rw [set_mode, if_pos hl] at heq
      exact absurd heq (by simp)
    · rw [set_mode, if_neg hl] at heq
      have h2 := Except.ok.inj heq
      rw [← h2]
  | grant s d hr ih =>
    simp [grant_temporary_emergency, mgrGrant] at h
  | extend s d hr ih =>
    by_cases hv : is_valid s = false
    · rw [extend_temporary_emergency, if_pos hv] at h ⊢
      exact ih h
    · rw [extend_temporary_emergency, if_neg hv] at h
      simp [mgrGrant] at h
  | expire s hr hc ih => rfl
  | revoke s hr ih => rfl

/-- Claim C4 witness: grant then revoke from a fresh engine; the grant is
inactive and the two modes agree. -/
theorem inactive_implies_modes_equal_witness :
    (revoke_temporary_emergency
        (grant_temporary_emergency (initEngine opsPolicy) 10)).current_mode =
    (revoke_temporary_emergency
        (grant_temporary_emergency (initEngine opsPolicy) 10)).base_mode :=
  inactive_implies_modes_equal _
    (Reachable.revoke _ (Reachable.grant _ 10 (Reachable.init opsPolicy)))
    (by decide)

/-- Claim C5: for a mode defined in the document, `set_mode` issued while a
temporary grant is valid succeeds, revokes the grant (timer cancelled, so
the expiry step is disabled forever after, whatever the clock does) and
sets both modes permanently; `set_mode` with an undefined mode name fails
with a `ValueError` and produces no new state. -/
theorem set_mode_revokes_and_is_permanent (s : EngineState) (m : String)
    (mode_policy : Mode) (hm : s.policy.modes.lookup m = some mode_policy)
    (hv : is_valid s = true) :
    set_mode s m =
      .ok { s with temp := mgrRevoke, current_mode := m, base_mode := m } ∧
    (∀ d : Nat,
      canExpire (tick { s with temp := mgrRevoke, current_mode := m, base_mode := m } d)
        = false) ∧
    (∀ m2 : String, s.policy.modes.lookup m2 = none → set_mode s m2 = .error m2) := by
  refine ⟨?_, ?_, ?_⟩
  · rw [set_mode, if_neg (by simp [hm])]
    simp [hv]
  · intro d
    rfl
  · intro m2 hm2
    rw [set_mode, if_pos (by simp [hm2])]

/-- Claim C5 witness: switch to EMERGENCY while a 10-second grant is valid;
the grant is cleared and both modes become EMERGENCY. -/
theorem set_mode_revokes_and_is_permanent_witness :
    set_mode (grant_temporary_emergency (initEngine opsPolicy) 10) "EMERGENCY" =
      .ok { grant_temporary_emergency (initEngine opsPolicy) 10 with
            temp := mgrRevoke, current_mode := "EMERGENCY", base_mode := "EMERGENCY" } :=
  (set_mode_revokes_and_is_permanent
    (grant_temporary_emergency (initEngine opsPolicy) 10) "EMERGENCY"
    { description := "Remediation allowed",
      allowed_tools := ["get_service_status", "read_logs", "list_services",
                        "restart_service", "scale_fleet"],
      blocked_tools := ["delete_database"] }
    (by decide) (by decide)).1

/-- Claim C6 counterexample: grant one second, let half a second elapse,
then extend by ten seconds.  The remaining time before the extension is
0.5 s (500000 microseconds), so the claim says the new remaining duration
is exactly 10.5 s; the source computes `int(0.5 + 10) = 10` seconds, and
the new remaining time is 10 s (10000000 microseconds), not 10.5 s. -/
theorem extend_remaining_truncated :
    remaining_micro (tick (grant_temporary_emergency (initEngine opsPolicy) 1) 500000) =
      some 500000 ∧
    remaining_micro (extend_temporary_emergency
        (tick (grant_temporary_emergency (initEngine opsPolicy) 1) 500000) 10) =
      some 10000000 ∧
    (10000000 : Int) ≠ 500000 + 10 * 1000000 := by decide

/-- Claim C6 amended: with a valid grant whose expiry is `e`, `extend`
leaves both `base_mode` and `current_mode` unchanged and reschedules the
expiry to `now + int(max(0, remaining) + additional) seconds` — the exact
sum truncated to a whole number of seconds by Python `int()` (`Int.tdiv`),
not the exact sum; with no valid grant, `extend` is a non-fatal no-op. -/
theorem extend_truncates (s : EngineState) (d : Int) :
    (∀ e : Int, is_valid s = true → s.temp.expiry_time = some e →
      (extend_temporary_emergency s d).base_mode = s.base_mode ∧
      (extend_temporary_emergency s d).current_mode = s.current_mode ∧
      (extend_temporary_emergency s d).temp.expiry_time =
        some (s.now + Int.tdiv (max 0 (e - s.now) + d * 1000000) 1000000 * 1000000)) ∧
    (is_valid s = false → extend_temporary_emergency s d = s) := by
  constructor
  · intro e hv he
    have ha : s.temp.is_active = true := by
      rw [is_valid, Bool.and_eq_true] at hv
      exact hv.1
    rw [extend_temporary_emergency, if_neg (by simp [hv])]
    refine ⟨rfl, rfl, ?_⟩
    simp [mgrGrant, remaining_micro, ha, he]
  · intro hv
    rw [extend_temporary_emergency, if_pos hv]

/-- Claim C6 witness (for the amended statement): the concrete half-second
scenario, rescheduled to expire at 10500000 microseconds, i.e. 10 whole
seconds after the extension instant. -/
theorem extend_truncates_witness :
    (extend_temporary_emergency
        (tick (grant_temporary_emergency (initEngine opsPolicy) 1) 500000)
        10).temp.expiry_time = some 10500000 := by
  have h := (extend_truncates
    (tick (grant_temporary_emergency (initEngine opsPolicy) 1) 500000) 10).1
    1000000 (by decide) (by decide)
  exact h.2.2.trans (by decide)

/-- Claim C7 counterexample: the initial mode is hardcoded to `"NORMAL"`,
so with a well-formed document whose mode set is `{SAFE}` the engine's
`validate` does not return a decision at all: the mode lookup raises an
untyped `KeyError`.  An arbitrary document-defined mode set therefore does
not work. -/
theorem validate_crashes_without_normal_mode :
    validate (initEngine safeOnlyPolicy) "ping" [] [] = .keyError "NORMAL" ∧
    isKeyError (validate (initEngine safeOnlyPolicy) "ping" [] []) = true := by
  decide

/-- Claim C7 amended: whenever the mode currently in force is defined by
the document, `validate` never crashes: every outcome is the allow value or
a typed `PolicyViolationError` (and `validate` reads but never writes the
engine state, which in this embedding is a pure function of the state). -/
theorem validate_total_when_mode_defined (s : EngineState) (t : String)
    (args context : List (String × String)) (mode_policy : Mode)
    (hm : s.policy.modes.lookup s.current_mode = some mode_policy) :
    isKeyError (validate s t args context) = false := by
  unfold validate
  rw [hm]
  by_cases hg : t ∈ s.policy.global_rules.always_blocked <;>
  by_cases hb : t ∈ mode_policy.blocked_tools <;>
  by_cases ha : t ∈ mode_policy.allowed_tools <;>
  simp [hg, hb, ha, isKeyError]

/-- Claim C7 witness (for the amended statement): with the demo document,
whose NORMAL mode is defined, validating an arbitrary tool never crashes. -/
theorem validate_total_when_mode_defined_witness :
    isKeyError (validate (initEngine opsPolicy) "restart_service" [] []) = false :=
  validate_total_when_mode_defined (initEngine opsPolicy) "restart_service" [] []
    { description := "Read-only operations",
      allowed_tools := ["get_service_status", "read_logs", "list_services"],
      blocked_tools := ["restart_service", "scale_fleet", "delete_database"] }
    (by decide)

namespace Conc

/-!
Interleaving model for the timer-cancellation race (`threading.Timer`
semantics).  `cancel()` only stops a timer that is still in its waiting
stage; a timer whose function has already been entered keeps running, and
`_expire` then merely waits on the manager lock before mutating state.  We
therefore track, besides the engine fields, the waiting timers
(`scheduled`, identified by a generation number and their fire time), the
manager's reference to its own timer (`mgrTimer`), and the number of
`_expire` invocations already started and waiting for the lock
(`pending`).  Each lock-protected critical section is one atomic step.
-/

/-- Engine plus timer-runtime state. -/
structure CState where
  current_mode : String
  base_mode : String
  is_active : Bool
  expiry_time : Option Int
  mgrTimer : Option Nat
  scheduled : List (Nat × Int)
  pending : Nat
  nextId : Nat
  now : Int
deriving DecidableEq, Repr

/-- Effect of `threading.Timer.cancel` on the manager's timer: removes it from the
waiting stage if it is still there; a started timer is unaffected. -/
def cancelTimer (i : Option Nat) (l : List (Nat × Int)) : List (Nat × Int) :=
  match i with
  | none => l
  | some j => l.filter (fun e => e.1 != j)

/-- Embedding of `PolicyEngine.grant_temporary_emergency` as one atomic step: capture the
base mode, elevate, cancel the previous waiting timer, and schedule a fresh
one at the new expiry instant. -/
def cgrant (s : CState) (d : Int) : CState :=
  { s with base_mode := s.current_mode, current_mode := "EMERGENCY",
           is_active := true,
           expiry_time := some (s.now + d * 1000000),
           scheduled := (s.nextId, s.now + d * 1000000) :: cancelTimer s.mgrTimer s.scheduled,
           mgrTimer := some s.nextId,
           nextId := s.nextId + 1 }

/-- Embedding of `PolicyEngine.revoke_temporary_emergency` as one atomic step: cancel the
waiting timer, deactivate, and restore `current_mode = base_mode`
synchronously. A started `_expire` (counted in `pending`) is not stopped. -/
def crevoke (s : CState) : CState :=
  { s with scheduled := cancelTimer s.mgrTimer s.scheduled,
           mgrTimer := none, is_active := false, expiry_time := none,
           current_mode := s.base_mode }

/-- Advance the clock. -/
def ctick (s : CState) (d : Nat) : CState :=
  { s with now := s.now + d }

/-- The runtime starts a waiting timer whose interval has elapsed: it leaves
the waiting stage (beyond the reach of `cancel`) and its `_expire` begins,
blocking on the manager lock. -/
def ctimerStart (s : CState) : CState :=
  match s.scheduled.find? (fun e => decide (e.2 ≤ s.now)) with
  | none => s
  | some e =>
    { s with scheduled := s.scheduled.filter (fun x => x.1 != e.1),
             pending := s.pending + 1 }

/-- A started `_expire` acquires the lock and runs its body: deactivate,
clear the expiry and the manager's timer reference, and the `on_expiry`
callback restores `current_mode = base_mode`. -/
def crunExpire (s : CState) : CState :=
  match s.pending with
  | 0 => s
  | n + 1 =>
    { s with pending := n, is_active := false, expiry_time := none,
             mgrTimer := none, current_mode := s.base_mode }

/-- Freshly constructed engine with an idle timer runtime. -/
def cinit : CState :=
  { current_mode := "NORMAL", base_mode := "NORMAL", is_active := false,
    expiry_time := none, mgrTimer := none, scheduled := [], pending := 0,
    nextId := 0, now := 0 }

end Conc

/-- Claim C8 counterexample: an interleaving in which cancellation is not
effective-once.  Grant one second; at the expiry instant the timer starts
(its `_expire` is entered and blocks on the lock, so `cancel` can no longer
stop it); the caller revokes, then issues a fresh 100-second grant (state
`c5`: active, EMERGENCY).  The stale callback then acquires the lock and
runs: it deactivates the fresh grant and reverts the mode to NORMAL — the
previously scheduled timer's callback fired after revocation. -/
theorem stale_timer_fires_after_revoke :
    (let c4 := Conc.crevoke (Conc.ctimerStart (Conc.ctick (Conc.cgrant Conc.cinit 1) 1000000))
     let c5 := Conc.cgrant c4 100
     let c6 := Conc.crunExpire c5
     c4.current_mode = "NORMAL" ∧ c4.pending = 1 ∧
     c5.is_active = true ∧ c5.current_mode = "EMERGENCY" ∧
     c6.is_active = false ∧ c6.current_mode = "NORMAL") := by decide

/-- Claim C8 amended: `revoke` restores `current_mode = base_mode`
immediately and synchronously, and cancels the scheduled timer while it is
still in its waiting stage (afterwards no timer of the manager remains
scheduled, and when no `_expire` had already started, none can run); but
cancellation is not effective-once: an `_expire` that already started —
racing with the revocation for the lock — still runs its callback
afterwards, and can deactivate a subsequently issued grant and revert the
mode, as the counterexample interleaving shows. -/
theorem revoke_synchronous_cancel_waiting (s : Conc.CState) (h : s.pending = 0) :
    (Conc.crevoke s).current_mode = s.base_mode ∧
    (Conc.crevoke s).is_active = false ∧
    (Conc.crevoke s).pending = 0 ∧
    Conc.crunExpire (Conc.crevoke s) = Conc.crevoke s ∧
    (∀ i : Nat, s.mgrTimer = some i →
      ((Conc.crevoke s).scheduled.find? (fun e => e.1 == i)) = none) := by
  refine ⟨rfl, rfl, h, ?_, ?_⟩
  · rw [Conc.crunExpire]
    have hp : (Conc.crevoke s).pending = 0 := h
    rw [hp]
  · intro i hi
    rw [Conc.crevoke]
    simp only [Conc.cancelTimer, hi]
    rw [List.find?_eq_none]
    intro a ha
    have := List.of_mem_filter ha
    simpa using this

/-- Claim C8 witness (for the amended statement): revoking right after a
grant, before the timer could start, restores NORMAL and leaves nothing
pending. -/
theorem revoke_synchronous_cancel_waiting_witness :
    (Conc.crevoke (Conc.cgrant Conc.cinit 1)).current_mode = "NORMAL" :=
  ((revoke_synchronous_cancel_waiting (Conc.cgrant Conc.cinit 1) (by decide)).1).trans
    (by decide)
